import Mathlib

/-!
# Verification of the NativeIFC document observer (`ifc_observer.py`)

A shallow embedding of the FreeCAD NativeIFC document observer.  Host
objects and documents are duck-typed records with optional fields, so an
optional attribute such as `IfcFilePath` is modelled as an `Option`
(`none` = the attribute is absent, mirroring Python's `hasattr`).  The
observer's mutable scratch state (`self.docname` / `self.objname`) is an
explicit `ObsState` record threaded through the handlers.  Attribute
accesses that Python performs without a `hasattr` guard (and which
therefore can raise `AttributeError`) are modelled with `Except`.
External collaborators (`ifc_tools`, `ifc_generator`) are abstracted:
their observable inputs/outputs become function parameters or state
fields, as described at each definition.
-/

namespace IfcObserver

/-- An IFC file handle, as far as the observer inspects it: only its
embedded schema name (`ifcfile.wrapped_data.schema_name()`). -/
structure IfcFile where
  schema_name : String
deriving Repr, DecidableEq

/-- A Python proxy object attached to a document or object.  The fields
model exactly the attributes the observer reads or writes:
`nodelete` (read with `getattr(-, "nodelete", False)`), `ifcfile`
(`hasattr` probe; `none` = absent), `ghost` (`hasattr` probe) and
`cached` (written on Coin-mode objects). -/
structure Proxy where
  nodelete : Bool
  ifcfile : Option IfcFile
  ghost : Bool
  cached : Bool
deriving Repr, DecidableEq

/-- A host document object (FreeCAD `DocumentObject`) as a duck-typed
record of the attributes the observer probes.  `none` models an absent
attribute.  `viewProxy` models whether `obj.ViewObject` exists and
carries a usable `Proxy` (in a GUI-less host, `ViewObject` is `None` and
accessing `.Proxy` on it raises). -/
structure FCObject where
  name : String
  label : String
  typeId : String
  ifcFilePath : Option String
  modified : Option Bool
  stepId : Option Int
  ifcType : Option String
  shapeMode : Option String
  derivedFromPartFeature : Bool
  proxy : Option Proxy
  viewProxy : Bool
deriving Repr, DecidableEq

/-- A host document as a duck-typed record of the attributes the
observer probes.  A FreeCAD document may itself carry the IFC marker
attributes (`IfcFilePath`, `Modified`) in single-document mode. -/
structure FCDocument where
  name : String
  schema : String
  ifcFilePath : Option String
  modified : Option Bool
  proxy : Option Proxy
  viewProxy : Bool
  objects : List FCObject
deriving Repr, DecidableEq

/-- The host application's open-document table (`FreeCAD.listDocuments`
/ `FreeCAD.getDocument`). -/
structure World where
  documents : List FCDocument
deriving Repr, DecidableEq

/-- `FreeCAD.listDocuments()`: the names of the open documents. -/
def listDocuments (w : World) : List String :=
  w.documents.map FCDocument.name

/-- `FreeCAD.getDocument(name)`: the first open document with the given
name, if any. -/
def getDocument (w : World) (n : String) : Option FCDocument :=
  w.documents.find? (fun d => d.name == n)

/-- The observer's mutable scratch state: `self.docname` and
`self.objname`.  `none` models the attribute being absent (never set,
or removed with `del`). -/
structure ObsState where
  docname : Option String
  objname : Option String
deriving Repr, DecidableEq

/-- `slotStartSaveDocument(doc, value)`: records `doc.Name` in
`self.docname` and schedules the deferred `save` (the returned `Bool`
records that a timer was scheduled).  `self.objname` is untouched. -/
def slotStartSaveDocument (st : ObsState) (doc : FCDocument) : ObsState × Bool :=
  ({ docname := some doc.name, objname := st.objname }, true)

/-- `slotDeletedObject(obj)`: returns whether
`ifc_tools.remove_ifc_element(obj)` is invoked.  The collaborator lookup
`ifc_tools.get_project(obj)` is abstracted as the boolean `proj`
(whether it returned a truthy project). -/
def slotDeletedObject (proj : Bool) (obj : FCObject) : Bool :=
  if !proj then false
  else
    match obj.proxy with
    | none => false
    | some p => !p.nodelete

/-- `slotCreatedObject(obj)`: the owning document is read with
`getattr(obj, "Document", None)` and passed here as `d`.  If the
document carries `IfcFilePath`, records `obj.Name` and the document
name in scratch state and schedules the deferred `convert` (the
returned `Bool`); otherwise a no-op. -/
def slotCreatedObject (st : ObsState) (d : Option FCDocument) (obj : FCObject) :
    ObsState × Bool :=
  match d with
  | none => (st, false)
  | some doc =>
    if doc.ifcFilePath.isSome then
      ({ docname := some doc.name, objname := some obj.name }, true)
    else
      (st, false)

/-- `ifc_tools.get_ifcfile(doc)`: collaborator accessor, modelled as
returning the IFC file handle stored on the document's proxy (the spec's
"file-handle accessor — given a document, returns its backing IFC file
handle or none"). -/
def get_ifcfile (doc : FCDocument) : Option IfcFile :=
  doc.proxy.bind Proxy.ifcfile

/-- One iteration of the migration loop of `slotChangedDocument`: build
`child`, the objects whose `StepId` equals `old_id`; when exactly one
matches, set its `StepId` to `new_id` (in-place mutation of `child[0]`,
modelled as updating the unique matching element); otherwise leave the
document's objects unchanged. -/
def migrate_pair (objs : List FCObject) (old_id new_id : Int) : List FCObject :=
  let child := objs.filter (fun o => o.stepId == some old_id)
  if child.length == 1 then
    objs.map (fun o =>
      if o.stepId == some old_id then { o with stepId := some new_id } else o)
  else
    objs

/-- The full migration loop: fold `migrate_pair` over the migration
table (`migration_table.items()`, in insertion order). -/
def migrate_children (objs : List FCObject) (table : List (Int × Int)) : List FCObject :=
  table.foldl (fun acc pr => migrate_pair acc pr.1 pr.2) objs

/-- Result of `slotChangedDocument`: the (possibly updated) document and
whether the schema-migration routine (`ifc_tools.migrate_schema`) was
invoked. -/
structure MigrationResult where
  doc : FCDocument
  migrated : Bool
deriving Repr, DecidableEq

/-- `slotChangedDocument(doc, prop)`: acts only when the changed
property is exactly `"Schema"` and the document has `IfcFilePath` in
its properties.  If the collaborator returns a backing IFC file whose
embedded schema name differs from `doc.Schema`, invokes the migrator
(the parameter `migrate`, abstracting `ifc_tools.migrate_schema`),
stores the new handle on the proxy, and remaps children per
`migrate_children`. -/
def slotChangedDocument (migrate : IfcFile → String → IfcFile × List (Int × Int))
    (doc : FCDocument) (prop : String) : MigrationResult :=
  if prop == "Schema" && doc.ifcFilePath.isSome then
    match get_ifcfile doc with
    | none => ⟨doc, false⟩
    | some f =>
      if doc.schema != f.schema_name then
        let r := migrate f doc.schema
        let newProxy :=
          match doc.proxy with
          | none => none
          | some p => some { p with ifcfile := some r.1 }
        ⟨{ doc with proxy := newProxy,
                    objects := migrate_children doc.objects r.2 }, true⟩
      else
        ⟨doc, false⟩
  else
    ⟨doc, false⟩

/-- Modelled from the spec: `ifc_generator.create_ghost(doc)` is not
under `src/`; per the spec it "delegates creation of a ghost placeholder
object to a collaborator" and afterwards the proxy carries the ghost
attribute (so a second activation "invokes it zero additional times").
We model only the observable effect on the proxy's `ghost` marker. -/
def create_ghost (doc : FCDocument) : FCDocument :=
  match doc.proxy with
  | none => doc
  | some p => { doc with proxy := some { p with ghost := true } }

/-- Result of `slotActivateDocument`: the updated document, how many
times `ifc_generator.create_ghost` was invoked, and the deferred timers
scheduled (object touches, recompute, view fit). -/
structure ActivateResult where
  doc : FCDocument
  ghostCalls : Nat
  timers : List String
deriving Repr, DecidableEq

/-- The per-object body of the Coin loop in `slotActivateDocument`:
for an object whose `ShapeMode` is `"Coin"`, sets `obj.Proxy.cached =
True` (raising `AttributeError` when the object has no `Proxy`) and
schedules a deferred `obj.touch`. -/
def touch_coin (o : FCObject) : Except String (FCObject × List String) :=
  if o.shapeMode == some "Coin" then
    match o.proxy with
    | none => .error "AttributeError: Proxy"
    | some p => .ok ({ o with proxy := some { p with cached := true } },
                     ["touch " ++ o.name])
  else
    .ok (o, [])

/-- The Coin loop over all document objects, left to right. -/
def touch_coins : List FCObject → Except String (List FCObject × List String)
  | [] => .ok ([], [])
  | o :: os =>
    match touch_coin o with
    | .error e => .error e
    | .ok (o', ts) =>
      match touch_coins os with
      | .error e => .error e
      | .ok (os', ts') => .ok (o' :: os', ts ++ ts')

/-- `slotActivateDocument(doc)`: when the document has a proxy with an
`ifcfile` attribute: if it has objects, run the Coin loop and schedule a
deferred recompute and view fit; if it has none and the proxy carries no
`ghost` attribute yet, invoke the ghost-creation collaborator. -/
def slotActivateDocument (doc : FCDocument) : Except String ActivateResult :=
  match doc.proxy with
  | none => .ok ⟨doc, 0, []⟩
  | some p =>
    if p.ifcfile.isSome then
      match doc.objects with
      | [] =>
        if p.ghost then .ok ⟨doc, 0, []⟩
        else .ok ⟨create_ghost doc, 1, []⟩
      | o :: os =>
        match touch_coins (o :: os) with
        | .error e => .error e
        | .ok (objs', ts) =>
          .ok ⟨{ doc with objects := objs' }, 0, ts ++ ["recompute", "fit_all"]⟩
    else
      .ok ⟨doc, 0, []⟩

/-- `fit_all()`: sends `"ViewFit"` to the active view only when the host
GUI is up; otherwise does nothing. -/
def fit_all (gui : Bool) : List String :=
  if gui then ["ViewFit"] else []

/-- A save candidate collected by the deferred `save`: either the
document itself or one of its feature objects. -/
inductive SaveCandidate where
  | doc (d : FCDocument)
  | obj (o : FCObject)
deriving Repr, DecidableEq

/-- `obj.IfcFilePath` of a save candidate. -/
def SaveCandidate.ifcFilePath : SaveCandidate → Option String
  | .doc d => d.ifcFilePath
  | .obj o => o.ifcFilePath

/-- `obj.Proxy` of a save candidate (`none` = attribute absent). -/
def SaveCandidate.proxy : SaveCandidate → Option Proxy
  | .doc d => d.proxy
  | .obj o => o.proxy

/-- Whether `obj.ViewObject` exists and carries a usable `Proxy`. -/
def SaveCandidate.viewProxy : SaveCandidate → Bool
  | .doc d => d.viewProxy
  | .obj o => o.viewProxy

/-- `obj.Name` of a save candidate. -/
def SaveCandidate.name : SaveCandidate → String
  | .doc d => d.name
  | .obj o => o.name

/-- The candidate-collection step of the deferred `save` (`objs` in the
code): if the document has both `IfcFilePath` and `Modified`, the
document itself when `doc.Modified` is truthy (and nothing otherwise);
else every `Part::FeaturePython` object of the document that has both
attributes and a truthy `Modified`. -/
def save_candidates (doc : FCDocument) : List SaveCandidate :=
  if doc.ifcFilePath.isSome && doc.modified.isSome then
    if doc.modified == some true then [.doc doc] else []
  else
    (doc.objects.filter (fun o => o.typeId == "Part::FeaturePython")).filterMap
      (fun o =>
        if o.ifcFilePath.isSome && o.modified.isSome && o.modified == some true then
          some (.obj o)
        else
          none)

/-- A save performed on one candidate: `obj.ViewObject.Proxy.save()` or
`obj.ViewObject.Proxy.save_as()`. -/
inductive SaveEffect where
  | saveExisting (n : String)
  | saveAs (n : String)
deriving Repr, DecidableEq

/-- The per-candidate body of the final loop of `save`: evaluates
`obj.IfcFilePath and getattr(obj.Proxy, "ifcfile", None)` (left to
right, short-circuiting, raising `AttributeError` on a missing
attribute) and calls `save` or `save_as` through the view-object proxy
(raising when `ViewObject` is unusable). -/
def save_one (c : SaveCandidate) : Except String SaveEffect :=
  match c.ifcFilePath with
  | none => .error "AttributeError: IfcFilePath"
  | some path =>
    if path.isEmpty then
      -- `obj.IfcFilePath` falsy: short-circuit, `Proxy` is not probed
      if c.viewProxy then .ok (.saveAs c.name)
      else .error "AttributeError: ViewObject"
    else
      match c.proxy with
      | none => .error "AttributeError: Proxy"
      | some p =>
        if p.ifcfile.isSome then
          if c.viewProxy then .ok (.saveExisting c.name)
          else .error "AttributeError: ViewObject"
        else
          if c.viewProxy then .ok (.saveAs c.name)
          else .error "AttributeError: ViewObject"

/-- The final loop of `save`, left to right; a raise aborts the rest. -/
def save_loop : List SaveCandidate → Except String (List SaveEffect)
  | [] => .ok []
  | c :: cs =>
    match save_one c with
    | .error e => .error e
    | .ok eff =>
      match save_loop cs with
      | .error e => .error e
      | .ok effs => .ok (eff :: effs)

/-- Host-environment inputs consumed by the deferred `save`: whether the
GUI is up (`FreeCAD.GuiUp`), the stored `"AskBeforeSaving"` preference
(`params.GetBool`, default `true`), the confirmation dialog's result
(`dlg.exec_()`) and its checkbox state
(`dlg.checkAskBeforeSaving.isChecked()`). -/
structure SaveEnv where
  gui : Bool
  askParam : Bool
  dialogResult : Bool
  dialogChecked : Bool
deriving Repr, DecidableEq

/-- Result of the deferred `save`: the observer scratch state after the
run (observer attributes survive a Python exception), and either the
saves performed together with the `SetBool("AskBeforeSaving", -)` write
(`none` = the preference store was not written), or the exception
raised. -/
structure SaveResult where
  state : ObsState
  outcome : Except String (List SaveEffect × Option Bool)
deriving Repr

/-- The part of `save` that runs once the document was found, after
`del self.docname`: collect candidates; if any, optionally show the
confirmation dialog (only when `ask` and the GUI is up; a rejected
dialog returns with nothing saved and nothing written; an accepted one
persists the checkbox state), then run the save loop. -/
def save_body (env : SaveEnv) (st1 : ObsState) (doc : FCDocument) : SaveResult :=
  let objs := save_candidates doc
  if objs.isEmpty then
    ⟨st1, .ok ([], none)⟩
  else
    if env.askParam && env.gui then
      if !env.dialogResult then
        ⟨st1, .ok ([], none)⟩
      else
        match save_loop objs with
        | .error e => ⟨st1, .error e⟩
        | .ok effs => ⟨st1, .ok (effs, some env.dialogChecked)⟩
    else
      match save_loop objs with
      | .error e => ⟨st1, .error e⟩
      | .ok effs => ⟨st1, .ok (effs, none)⟩

/-- The deferred `save`: aborts silently when `self.docname` is absent
or the named document is no longer open (the pending name is NOT
cleared on that abort); otherwise clears `self.docname`
(`del self.docname`) and runs `save_body`. -/
def save (env : SaveEnv) (w : World) (st : ObsState) : SaveResult :=
  match st.docname with
  | none => ⟨st, .ok ([], none)⟩
  | some dn =>
    if !((listDocuments w).contains dn) then
      ⟨st, .ok ([], none)⟩
    else
      match getDocument w dn with
      | none => ⟨st, .ok ([], none)⟩
      | some doc => save_body env { docname := none, objname := st.objname } doc

/-- Result of the deferred `convert`: the observer scratch state after
the run and, when the conversion proceeded, the name of the object
passed to `ifc_tools.aggregate` (the collaborators `aggregate` and
`add_geom_properties` and the final recompute are abstracted into this
observable). -/
structure ConvertResult where
  state : ObsState
  converted : Option String
deriving Repr, DecidableEq

/-- The deferred `convert`: aborts silently when a pending name is
absent, the document is no longer open, the object no longer exists, or
the object already has `StepId` among its properties — the pending
names are NOT cleared on those aborts.  Otherwise clears both pending
names (`del self.docname; del self.objname`) and, when the object
derives from `Part::Feature` and has `IfcType`, aggregates it into the
IFC tree. -/
def convert (w : World) (st : ObsState) : ConvertResult :=
  match st.objname, st.docname with
  | some objn, some dn =>
    if !((listDocuments w).contains dn) then
      ⟨st, none⟩
    else
      match getDocument w dn with
      | none => ⟨st, none⟩
      | some doc =>
        match doc.objects.find? (fun o => o.name == objn) with
        | none => ⟨st, none⟩
        | some obj =>
          if obj.stepId.isSome then
            ⟨st, none⟩
          else
            if obj.derivedFromPartFeature then
              if obj.ifcType.isSome then
                ⟨{ docname := none, objname := none }, some obj.name⟩
              else
                ⟨{ docname := none, objname := none }, none⟩
            else
              ⟨{ docname := none, objname := none }, none⟩
  | _, _ => ⟨st, none⟩

/-! ## Helper lemmas -/

/-- `self.docname in FreeCAD.listDocuments()` succeeds exactly when
`FreeCAD.getDocument(self.docname)` finds a document. -/
theorem contains_listDocuments (w : World) (n : String) :
    (listDocuments w).contains n = true ↔ (getDocument w n).isSome = true := by
  unfold listDocuments getDocument
  simp [List.find?_isSome, List.mem_map]

theorem contains_of_getDocument {w : World} {n : String} {d : FCDocument}
    (h : getDocument w n = some d) : (listDocuments w).contains n = true :=
  (contains_listDocuments w n).mpr (by simp [h])

theorem mem_listDocuments_of_getDocument {w : World} {n : String}
    {d : FCDocument} (h : getDocument w n = some d) : n ∈ listDocuments w := by
  simpa using contains_of_getDocument h

theorem not_contains_of_getDocument {w : World} {n : String}
    (h : getDocument w n = none) : (listDocuments w).contains n = false := by
  cases hc : (listDocuments w).contains n with
  | false => rfl
  | true =>
    have := (contains_listDocuments w n).mp hc
    rw [h] at this
    simp at this

/-! ## Claim theorems -/

/-- C6: `slotDeletedObject` invokes the collaborator's element removal
if and only if the object resolves to an owning IFC project, has a
`Proxy` attribute, and the proxy's `nodelete` flag is not set; in
particular it never invokes removal when the proxy's `nodelete` flag is
set. -/
theorem C6_delete_guard (proj : Bool) (obj : FCObject) :
    (slotDeletedObject proj obj = true ↔
      proj = true ∧ ∃ p, obj.proxy = some p ∧ p.nodelete = false) ∧
    (∀ p, obj.proxy = some p → p.nodelete = true →
      slotDeletedObject proj obj = false) := by
  cases proj <;> cases hp : obj.proxy <;>
    simp [slotDeletedObject, hp]

/-- Witness for C6 at a concrete object whose proxy has `nodelete`
set: removal is not invoked. -/
def c6proxy : Proxy := ⟨true, none, false, false⟩

/-- Concrete object carrying `c6proxy`. -/
def c6obj : FCObject :=
  ⟨"o", "", "", none, none, none, none, none, false, some c6proxy, false⟩

theorem C6_delete_guard_witness : slotDeletedObject true c6obj = false :=
  (C6_delete_guard true c6obj).2 c6proxy rfl rfl

/-- C7: for every object created in a document that does not carry the
`IfcFilePath` marker attribute (including a missing owning document),
`slotCreatedObject` records no pending identifiers and schedules no
deferred conversion. -/
theorem C7_no_marker_no_convert (st : ObsState) (d : Option FCDocument)
    (obj : FCObject) (h : ∀ doc, d = some doc → doc.ifcFilePath = none) :
    slotCreatedObject st d obj = (st, false) := by
  cases d with
  | none => rfl
  | some doc =>
    have hd := h doc rfl
    simp [slotCreatedObject, hd]

/-- Concrete document without the IFC marker. -/
def c7doc : FCDocument := ⟨"d", "", none, none, none, false, []⟩

/-- Concrete object for the C7 witness. -/
def c7obj : FCObject :=
  ⟨"o", "", "", none, none, none, none, none, false, none, false⟩

theorem C7_no_marker_no_convert_witness :
    slotCreatedObject ⟨some "x", none⟩ (some c7doc) c7obj =
      (⟨some "x", none⟩, false) :=
  C7_no_marker_no_convert ⟨some "x", none⟩ (some c7doc) c7obj
    (fun doc hd => by cases hd; rfl)

/-- C5: `slotChangedDocument` invokes the schema-migration routine if
and only if the changed property is exactly `"Schema"`, the document
has the IFC-file-path attribute, the collaborator returns a backing IFC
file handle, and that file's embedded schema name differs from the
document's declared schema; when the schemas already match the
operation leaves the document unchanged (no-op). -/
theorem C5_schema_migration_trigger
    (migrate : IfcFile → String → IfcFile × List (Int × Int))
    (doc : FCDocument) (prop : String) :
    ((slotChangedDocument migrate doc prop).migrated = true ↔
      prop = "Schema" ∧ doc.ifcFilePath.isSome = true ∧
      ∃ f, get_ifcfile doc = some f ∧ doc.schema ≠ f.schema_name) ∧
    (∀ f, get_ifcfile doc = some f → doc.schema = f.schema_name →
      slotChangedDocument migrate doc prop = ⟨doc, false⟩) := by
  constructor
  · constructor
    · intro h
      by_cases hp : prop = "Schema"
      · by_cases hi : doc.ifcFilePath.isSome = true
        · cases hf : get_ifcfile doc with
          | none => simp [slotChangedDocument, hp, hi, hf] at h
          | some f =>
            by_cases hs : doc.schema = f.schema_name
            · simp [slotChangedDocument, hp, hi, hf, hs] at h
            · exact ⟨hp, hi, f, hf ▸ rfl, hs⟩
        · simp [slotChangedDocument, hi] at h
      · simp [slotChangedDocument, hp] at h
    · rintro ⟨hp, hi, f, hf, hs⟩
      simp [slotChangedDocument, hp, hi, hf, hs]
  · intro f hf hs
    by_cases hp : prop = "Schema"
    · by_cases hi : doc.ifcFilePath.isSome = true
      · simp [slotChangedDocument, hp, hi, hf, hs]
      · simp [slotChangedDocument, hi]
    · simp [slotChangedDocument, hp]

/-- Migrator stub for the C5 witness: returns a file with the requested
schema and an empty id mapping. -/
def c5migrate (_f : IfcFile) (s : String) : IfcFile × List (Int × Int) :=
  (⟨s⟩, [])

/-- Concrete document for the C5 witness: declared schema `"IFC4"`,
backing file with embedded schema `"IFC2X3"`. -/
def c5doc : FCDocument :=
  ⟨"d", "IFC4", some "p.ifc", none, some ⟨false, some ⟨"IFC2X3"⟩, false, false⟩,
   false, []⟩

theorem C5_schema_migration_trigger_witness :
    (slotChangedDocument c5migrate c5doc "Schema").migrated = true ∧
    slotChangedDocument c5migrate { c5doc with schema := "IFC2X3" } "Other" =
      ⟨{ c5doc with schema := "IFC2X3" }, false⟩ :=
  ⟨(C5_schema_migration_trigger c5migrate c5doc "Schema").1.mpr
      ⟨rfl, rfl, ⟨"IFC2X3"⟩, rfl, by decide⟩,
   (C5_schema_migration_trigger c5migrate
      { c5doc with schema := "IFC2X3" } "Other").2 ⟨"IFC2X3"⟩ rfl rfl⟩

/-- A bare document object carrying only a name and a step id, for the
C4 migration scenarios. -/
def c4obj (n : String) (sid : Int) : FCObject :=
  ⟨n, "", "", none, none, some sid, none, none, false, none, false⟩

/-- C4: one step of the migration loop updates the unique child whose
`StepId` equals `old_id` to `new_id` and changes nothing when zero or
more than one child matches; with mapping `[(10, 20), (11, 21)]` and
exactly one object at step id 10 and one at 11, both are updated, and
with two objects sharing step id 10, neither is updated. -/
theorem C4_migration_remap :
    (∀ (objs : List FCObject) (old_id new_id : Int),
      (objs.filter (fun o => o.stepId == some old_id)).length ≠ 1 →
      migrate_pair objs old_id new_id = objs) ∧
    (∀ (objs : List FCObject) (old_id new_id : Int),
      (objs.filter (fun o => o.stepId == some old_id)).length = 1 →
      migrate_pair objs old_id new_id =
        objs.map (fun o =>
          if o.stepId == some old_id then { o with stepId := some new_id }
          else o)) ∧
    migrate_children [c4obj "a" 10, c4obj "b" 11] [(10, 20), (11, 21)] =
      [c4obj "a" 20, c4obj "b" 21] ∧
    migrate_children [c4obj "c" 10, c4obj "d" 10] [(10, 20), (11, 21)] =
      [c4obj "c" 10, c4obj "d" 10] := by
  refine ⟨?_, ?_, by decide, by decide⟩
  · intro objs old_id new_id h
    simp [migrate_pair, h]
  · intro objs old_id new_id h
    simp [migrate_pair, h]

theorem C4_migration_remap_witness :
    migrate_pair [c4obj "c" 10, c4obj "d" 10] 10 20 =
      [c4obj "c" 10, c4obj "d" 10] ∧
    migrate_pair [c4obj "a" 10] 10 20 = [c4obj "a" 20] := by
  constructor
  · exact C4_migration_remap.1 [c4obj "c" 10, c4obj "d" 10] 10 20 (by decide)
  · rw [C4_migration_remap.2.1 [c4obj "a" 10] 10 20 (by decide)]
    decide

/-- C8: activating a document whose proxy has a backing IFC file, zero
objects and no ghost yet invokes the ghost-creation collaborator
exactly once; activating the resulting document (its proxy now carrying
the ghost attribute) invokes it zero additional times. -/
theorem C8_ghost_creation_idempotent (doc : FCDocument) (p : Proxy)
    (h1 : doc.proxy = some p) (h2 : p.ifcfile.isSome = true)
    (h3 : doc.objects = []) (h4 : p.ghost = false) :
    slotActivateDocument doc = .ok ⟨create_ghost doc, 1, []⟩ ∧
    slotActivateDocument (create_ghost doc) = .ok ⟨create_ghost doc, 0, []⟩ := by
  have hcg : create_ghost doc = { doc with proxy := some { p with ghost := true } } := by
    simp [create_ghost, h1]
  constructor
  · simp [slotActivateDocument, h1, h2, h3, h4]
  · rw [hcg]
    simp [slotActivateDocument, h2, h3]

/-- Concrete document for the C8 witness: backing IFC file, no objects,
no ghost yet. -/
def c8doc : FCDocument :=
  ⟨"d", "", none, none, some ⟨false, some ⟨"IFC4"⟩, false, false⟩, false, []⟩

theorem C8_ghost_creation_idempotent_witness :
    slotActivateDocument c8doc = .ok ⟨create_ghost c8doc, 1, []⟩ ∧
    slotActivateDocument (create_ghost c8doc) = .ok ⟨create_ghost c8doc, 0, []⟩ :=
  C8_ghost_creation_idempotent c8doc ⟨false, some ⟨"IFC4"⟩, false, false⟩
    rfl rfl rfl rfl

/-- C9: the save-pending and convert-pending concerns share the single
`self.docname` field: `slotCreatedObject` on an object of an IFC-backed
document overwrites the name recorded by `slotStartSaveDocument`, so a
deferred `save` firing afterwards resolves the created object's
document, not the document whose save started. -/
theorem C9_shared_docname_field (st0 : ObsState) (doc0 doc1 : FCDocument)
    (obj : FCObject) (h : doc1.ifcFilePath.isSome = true) :
    ((slotStartSaveDocument st0 doc0).1).docname = some doc0.name ∧
    (slotCreatedObject (slotStartSaveDocument st0 doc0).1 (some doc1) obj).1 =
      ⟨some doc1.name, some obj.name⟩ ∧
    (∀ env w doc, getDocument w doc1.name = some doc →
      save env w (slotCreatedObject (slotStartSaveDocument st0 doc0).1
          (some doc1) obj).1 =
        save_body env ⟨none, some obj.name⟩ doc) := by
  refine ⟨rfl, ?_, ?_⟩
  · simp [slotCreatedObject, slotStartSaveDocument, h]
  · intro env w doc hdoc
    simp [slotCreatedObject, slotStartSaveDocument, h, save,
      mem_listDocuments_of_getDocument hdoc, hdoc]

/-- Concrete second document (IFC-backed) for the C9 witness. -/
def c9doc1 : FCDocument := ⟨"d1", "", some "p.ifc", none, none, false, []⟩

/-- Concrete first document (the one being saved) for the C9 witness. -/
def c9doc0 : FCDocument := ⟨"d0", "", none, none, none, false, []⟩

theorem C9_shared_docname_field_witness :
    (slotCreatedObject (slotStartSaveDocument ⟨none, none⟩ c9doc0).1
        (some c9doc1) c7obj).1 = ⟨some "d1", some "o"⟩ :=
  (C9_shared_docname_field ⟨none, none⟩ c9doc0 c9doc1 c7obj rfl).2.1

/-- A modified IFC-backed `Part::FeaturePython` object, used by the C1
counterexample. -/
def c1obj : FCObject :=
  ⟨"o", "", "Part::FeaturePython", some "q.ifc", some true, none, none, none,
   false, none, false⟩

/-- A document carrying both `IfcFilePath` and `Modified` with
`Modified = false`, containing `c1obj`. -/
def c1doc : FCDocument :=
  ⟨"d", "", some "p.ifc", some false, none, false, [c1obj]⟩

/-- C1 counterexample: `c1doc` has `Modified = false` and one modified
IFC `Part::FeaturePython` feature object, yet `save` collects NO
candidates — because a document that carries both marker attributes
with `Modified = false` takes the then-branch, which never scans the
feature objects; the claim says the object would be the sole
candidate. -/
theorem C1_counterexample :
    c1doc.modified = some false ∧
    c1obj ∈ c1doc.objects ∧
    c1obj.typeId = "Part::FeaturePython" ∧
    c1obj.ifcFilePath.isSome = true ∧
    c1obj.modified = some true ∧
    save_candidates c1doc = [] := by
  refine ⟨rfl, by decide, rfl, rfl, rfl, rfl⟩

/-- C1 (amended): when the document carries both the IFC-file-path
attribute and the modified flag, it is the sole candidate if modified
and there are no candidates at all otherwise (feature objects are not
scanned); only when the document lacks at least one of the two
attributes is every modified IFC-backed `Part::FeaturePython` object of
the document a candidate (and nothing else is). -/
theorem C1_save_candidate_selection (doc : FCDocument) :
    (doc.ifcFilePath.isSome = true → doc.modified.isSome = true →
      (doc.modified = some true → save_candidates doc = [.doc doc]) ∧
      (doc.modified ≠ some true → save_candidates doc = [])) ∧
    (¬(doc.ifcFilePath.isSome = true ∧ doc.modified.isSome = true) →
      (∀ d, SaveCandidate.doc d ∉ save_candidates doc) ∧
      (∀ o, SaveCandidate.obj o ∈ save_candidates doc ↔
        o ∈ doc.objects ∧ o.typeId = "Part::FeaturePython" ∧
        o.ifcFilePath.isSome = true ∧ o.modified = some true)) := by
  constructor
  · intro hi hm
    constructor
    · intro ht
      simp [save_candidates, hi, hm, ht]
    · intro ht
      simp [save_candidates, hi, hm, ht]
  · intro hn
    have hc : (doc.ifcFilePath.isSome && doc.modified.isSome) = false := by
      cases hif : doc.ifcFilePath.isSome <;> cases hmod : doc.modified.isSome <;>
        simp_all
    constructor
    · intro d hd
      simp [save_candidates, hc, List.mem_filterMap,
        Option.ite_none_right_eq_some] at hd
    · intro o
      simp only [save_candidates, hc, Bool.false_eq_true, if_false,
        List.mem_filterMap, List.mem_filter, Option.ite_none_right_eq_some,
        Option.some.injEq]
      constructor
      · rintro ⟨a, ⟨ha, hty⟩, hcond, heq⟩
        cases heq
        simp only [Bool.and_eq_true, beq_iff_eq] at hcond hty
        exact ⟨ha, hty, hcond.1.1, hcond.2⟩
      · rintro ⟨ha, hty, hif, hmod⟩
        refine ⟨o, ⟨ha, by simp [hty]⟩, ?_, rfl⟩
        simp [hif, hmod]

/-- Witness for the amended C1 at concrete inputs: a document carrying
both attributes and modified is its own sole candidate, and a document
lacking the attributes yields its modified IFC feature object. -/
def c1docB : FCDocument := ⟨"d2", "", none, none, none, false, [c1obj]⟩

theorem C1_save_candidate_selection_witness :
    save_candidates { c1doc with modified := some true } =
      [SaveCandidate.doc { c1doc with modified := some true }] ∧
    (SaveCandidate.obj c1obj ∈ save_candidates c1docB) :=
  ⟨((C1_save_candidate_selection { c1doc with modified := some true }).1
      rfl rfl).1 rfl,
   ((C1_save_candidate_selection c1docB).2 (by decide)).2 c1obj |>.mpr
      ⟨by decide, rfl, rfl, rfl⟩⟩

/-- The body of `save` never changes the scratch state it was handed
(the `del self.docname` already happened before it). -/
theorem save_body_state (env : SaveEnv) (st1 : ObsState) (doc : FCDocument) :
    (save_body env st1 doc).state = st1 := by
  unfold save_body
  cases h1 : (save_candidates doc).isEmpty <;>
    cases h2 : env.askParam && env.gui <;>
      cases h3 : env.dialogResult <;>
        cases h4 : save_loop (save_candidates doc) <;>
          simp [h1, h2, h3, h4]

/-- C2 counterexample: a `convert` that aborts because the pending
document is no longer open leaves the pending fields exactly as they
were — they are NOT cleared on this early-exit path, contrary to the
claim. -/
theorem C2_counterexample :
    convert ⟨[]⟩ ⟨some "d", some "o"⟩ = ⟨⟨some "d", some "o"⟩, none⟩ ∧
    (convert ⟨[]⟩ ⟨some "d", some "o"⟩).state ≠ ⟨none, none⟩ := by
  exact ⟨rfl, by decide⟩

/-- C2 (amended): the pending scratch fields are cleared exactly when
the deferred action reaches its payload.  `save` clears `docname` as
soon as the pending document is found (even if the later save loop
raises), and keeps the state untouched when the document is gone.
`convert` clears both names only after the document and object are
found and the object carries no `StepId`; on each early-exit path
(document gone, object gone, `StepId` present) the pending fields are
retained, not cleared. -/
theorem C2_pending_state_lifecycle :
    (∀ (env : SaveEnv) (w : World) (st : ObsState) (dn : String)
      (doc : FCDocument), st.docname = some dn → getDocument w dn = some doc →
      (save env w st).state = ⟨none, st.objname⟩) ∧
    (∀ (env : SaveEnv) (w : World) (st : ObsState) (dn : String),
      st.docname = some dn → getDocument w dn = none →
      (save env w st).state = st) ∧
    (∀ (w : World) (st : ObsState) (dn objn : String) (doc : FCDocument)
      (obj : FCObject), st.docname = some dn → st.objname = some objn →
      getDocument w dn = some doc →
      doc.objects.find? (fun o => o.name == objn) = some obj →
      obj.stepId = none →
      (convert w st).state = ⟨none, none⟩) ∧
    (∀ (w : World) (st : ObsState) (dn objn : String),
      st.docname = some dn → st.objname = some objn →
      getDocument w dn = none →
      (convert w st).state = st) ∧
    (∀ (w : World) (st : ObsState) (dn objn : String) (doc : FCDocument),
      st.docname = some dn → st.objname = some objn →
      getDocument w dn = some doc →
      doc.objects.find? (fun o => o.name == objn) = none →
      (convert w st).state = st) ∧
    (∀ (w : World) (st : ObsState) (dn objn : String) (doc : FCDocument)
      (obj : FCObject), st.docname = some dn → st.objname = some objn →
      getDocument w dn = some doc →
      doc.objects.find? (fun o => o.name == objn) = some obj →
      obj.stepId.isSome = true →
      (convert w st).state = st) := by
  refine ⟨?_, ?_, ?_, ?_, ?_, ?_⟩
  · intro env w st dn doc hdn hdoc
    simp [save, hdn, mem_listDocuments_of_getDocument hdoc, hdoc,
      save_body_state]
  · intro env w st dn hdn hdoc
    simp [save, hdn, hdoc]
  · intro w st dn objn doc obj hdn hobjn hdoc hfind hsid
    cases hdf : obj.derivedFromPartFeature <;> cases hit : obj.ifcType.isSome <;>
      simp [convert, hdn, hobjn, mem_listDocuments_of_getDocument hdoc, hdoc,
        hfind, hsid, hdf, hit]
  · intro w st dn objn hdn hobjn hdoc
    simp [convert, hdn, hobjn, hdoc]
  · intro w st dn objn doc hdn hobjn hdoc hfind
    simp [convert, hdn, hobjn, mem_listDocuments_of_getDocument hdoc, hdoc,
      hfind]
  · intro w st dn objn doc obj hdn hobjn hdoc hfind hsid
    simp [convert, hdn, hobjn, mem_listDocuments_of_getDocument hdoc, hdoc,
      hfind, hsid]

/-- Concrete world for the C2 witness: one open document `"d"` holding
one fresh object `"o"` (no `StepId` yet). -/
def c2doc : FCDocument := ⟨"d", "", some "p.ifc", none, none, false, [c7obj]⟩

theorem C2_pending_state_lifecycle_witness :
    (convert ⟨[c2doc]⟩ ⟨some "d", some "o"⟩).state = ⟨none, none⟩ ∧
    (convert ⟨[]⟩ ⟨some "d", some "o"⟩).state = ⟨some "d", some "o"⟩ :=
  ⟨C2_pending_state_lifecycle.2.2.1 ⟨[c2doc]⟩ ⟨some "d", some "o"⟩
      "d" "o" c2doc c7obj rfl rfl rfl rfl rfl,
   C2_pending_state_lifecycle.2.2.2.1 ⟨[]⟩ ⟨some "d", some "o"⟩
      "d" "o" rfl rfl rfl⟩

/-- A candidate whose marker attribute, `Proxy` and view-object proxy
are all present is saved without raising. -/
theorem save_one_ok (c : SaveCandidate) (h1 : c.ifcFilePath.isSome = true)
    (h2 : c.proxy.isSome = true) (h3 : c.viewProxy = true) :
    ∃ eff, save_one c = .ok eff := by
  unfold save_one
  cases hif : c.ifcFilePath with
  | none => rw [hif] at h1; simp at h1
  | some path =>
    cases hpx : c.proxy with
    | none => rw [hpx] at h2; simp at h2
    | some p =>
      by_cases hpe : path.isEmpty <;>
        cases hfi : p.ifcfile.isSome <;>
          simp [hpe, hfi, h3]

/-- The save loop does not raise when every candidate is well-formed. -/
theorem save_loop_ok (cs : List SaveCandidate)
    (h : ∀ c ∈ cs, c.ifcFilePath.isSome = true ∧ c.proxy.isSome = true ∧
      c.viewProxy = true) :
    ∃ effs, save_loop cs = .ok effs := by
  induction cs with
  | nil => exact ⟨[], rfl⟩
  | cons c cs ih =>
    obtain ⟨h1, h2, h3⟩ := h c (List.mem_cons_self c cs)
    obtain ⟨eff, he⟩ := save_one_ok c h1 h2 h3
    obtain ⟨effs, hes⟩ := ih (fun x hx => h x (List.mem_cons_of_mem c hx))
    exact ⟨eff :: effs, by simp [save_loop, he, hes]⟩

/-- `save_body` does not raise when the save loop does not. -/
theorem save_body_ok (env : SaveEnv) (st1 : ObsState) (doc : FCDocument)
    (h : ∃ effs, save_loop (save_candidates doc) = .ok effs) :
    ∃ r, (save_body env st1 doc).outcome = .ok r := by
  obtain ⟨effs, he⟩ := h
  unfold save_body
  cases h1 : (save_candidates doc).isEmpty <;>
    cases h2 : env.askParam && env.gui <;>
      cases h3 : env.dialogResult <;>
        simp [h1, h2, h3, he]

/-- When the dialog is not shown (`ask` false or no GUI), the
preference store is never written. -/
theorem save_body_pw_none (env : SaveEnv) (st1 : ObsState) (doc : FCDocument)
    (hg : (env.askParam && env.gui) = false) :
    ∀ effs pw, (save_body env st1 doc).outcome = .ok (effs, pw) → pw = none := by
  intro effs pw h
  unfold save_body at h
  cases h1 : (save_candidates doc).isEmpty <;>
    cases h4 : save_loop (save_candidates doc)
  all_goals simp [h1, hg, h4] at h
  all_goals tauto

/-- A shown-and-rejected dialog makes `save_body` return with nothing
saved and nothing written. -/
theorem save_body_reject (env : SaveEnv) (st1 : ObsState) (doc : FCDocument)
    (ha : env.askParam = true) (hg : env.gui = true)
    (hr : env.dialogResult = false) :
    save_body env st1 doc = ⟨st1, .ok ([], none)⟩ := by
  unfold save_body
  cases h1 : (save_candidates doc).isEmpty <;> simp [h1, ha, hg, hr]

/-- The preference store is written only on the accepted-dialog path,
and with the dialog's checkbox value. -/
theorem save_body_pw_some (env : SaveEnv) (st1 : ObsState) (doc : FCDocument) :
    ∀ effs b, (save_body env st1 doc).outcome = .ok (effs, some b) →
      env.askParam = true ∧ env.gui = true ∧ env.dialogResult = true ∧
      b = env.dialogChecked := by
  intro effs b h
  unfold save_body at h
  cases h1 : (save_candidates doc).isEmpty <;>
    cases h2 : env.askParam <;> cases h3 : env.gui <;>
      cases h4 : env.dialogResult <;>
        cases h5 : save_loop (save_candidates doc)
  all_goals simp [h1, h2, h3, h4, h5] at h
  all_goals tauto

/-- A document whose only save candidate is itself, with a proxy and
backing file but no usable view-object proxy (as in a GUI-less host,
where `obj.ViewObject` is `None`). -/
def c3doc : FCDocument :=
  ⟨"d", "", some "p.ifc", some true,
   some ⟨false, some ⟨"IFC4"⟩, false, false⟩, false, []⟩

/-- World for the C3 counterexample: only `c3doc` is open. -/
def c3world : World := ⟨[c3doc]⟩

/-- Environment for the C3 counterexample: no GUI. -/
def c3env : SaveEnv := ⟨false, true, false, false⟩

/-- C3 counterexample: with no GUI and a modified IFC-backed document
whose view-object proxy is unusable, the deferred `save` raises an
`AttributeError` instead of completing — refuting "saving each
candidate through its view-object proxy still completes without
raising" and, in general, "never raises on a missing attribute". -/
theorem C3_counterexample :
    c3env.gui = false ∧
    (save c3env c3world ⟨some "d", none⟩).outcome =
      .error "AttributeError: ViewObject" := ⟨rfl, rfl⟩

/-- C3 (amended): the observer's deferred save degrades to a silent
no-op when the pending name is absent or the document is gone, skips
the confirmation prompt and writes no preference when no GUI is up (and
the deferred view fit does nothing), and completes without raising
whenever every collected candidate carries its marker attribute, a
`Proxy` and a usable view-object proxy.  This is a sufficient
condition only: unlike the original claim's "never raises", the save
loop CAN raise `AttributeError` on some inputs — `C3_counterexample`
exhibits one (a GUI-less host, where the view-object proxy is
unusable). -/
theorem C3_silent_degradation (env : SaveEnv) (w : World) (st : ObsState) :
    (st.docname = none → save env w st = ⟨st, .ok ([], none)⟩) ∧
    (∀ dn, st.docname = some dn → getDocument w dn = none →
      save env w st = ⟨st, .ok ([], none)⟩) ∧
    (∀ dn doc, st.docname = some dn → getDocument w dn = some doc →
      (∀ c ∈ save_candidates doc, c.ifcFilePath.isSome = true ∧
        c.proxy.isSome = true ∧ c.viewProxy = true) →
      ∃ r, (save env w st).outcome = .ok r) ∧
    (env.gui = false →
      ∀ effs pw, (save env w st).outcome = .ok (effs, pw) → pw = none) ∧
    fit_all false = [] := by
  refine ⟨?_, ?_, ?_, ?_, rfl⟩
  · intro h
    simp [save, h]
  · intro dn hdn hd
    simp [save, hdn, hd]
  · intro dn doc hdn hd hall
    simp only [save, hdn, mem_listDocuments_of_getDocument hd,
      if_true, hd]
    simp [mem_listDocuments_of_getDocument hd, hd]
    obtain ⟨⟨effs, pw⟩, hr⟩ :=
      save_body_ok env ⟨none, st.objname⟩ doc (save_loop_ok _ hall)
    exact ⟨effs, pw, hr⟩
  · intro hg effs pw h
    cases hdn : st.docname with
    | none =>
      rw [save, hdn] at h
      simp at h
      exact h.2.symm
    | some dn =>
      cases hd : getDocument w dn with
      | none =>
        rw [save, hdn] at h
        simp [hd] at h
        exact h.2.symm
      | some doc =>
        rw [save, hdn] at h
        simp [mem_listDocuments_of_getDocument hd, hd] at h
        exact save_body_pw_none env _ doc (by simp [hg]) effs pw h

/-- World for the C3/C10 witnesses: a single well-formed modified
IFC-backed document whose view proxy is usable. -/
def c3docB : FCDocument :=
  ⟨"d", "", some "p.ifc", some true,
   some ⟨false, some ⟨"IFC4"⟩, false, false⟩, true, []⟩

/-- One-document world holding `c3docB`. -/
def c3worldB : World := ⟨[c3docB]⟩

theorem C3_silent_degradation_witness :
    (save c3env c3worldB ⟨none, none⟩ = ⟨⟨none, none⟩, .ok ([], none)⟩) ∧
    (∃ r, (save c3env c3worldB ⟨some "d", none⟩).outcome = .ok r) :=
  ⟨(C3_silent_degradation c3env c3worldB ⟨none, none⟩).1 rfl,
   (C3_silent_degradation c3env c3worldB ⟨some "d", none⟩).2.2.1 "d" c3docB
      rfl rfl (by decide)⟩

/-- C10: when the confirmation dialog is shown and rejected, `save`
returns with nothing saved and the `AskBeforeSaving` preference
unwritten; the preference is written back only when the dialog is
accepted, and then with the dialog's checkbox value. -/
theorem C10_dialog_reject_semantics (env : SaveEnv) (w : World) (st : ObsState) :
    (env.askParam = true → env.gui = true → env.dialogResult = false →
      (save env w st).outcome = .ok ([], none)) ∧
    (∀ effs b, (save env w st).outcome = .ok (effs, some b) →
      env.askParam = true ∧ env.gui = true ∧ env.dialogResult = true ∧
      b = env.dialogChecked) := by
  constructor
  · intro ha hg hr
    cases hdn : st.docname with
    | none => simp [save, hdn]
    | some dn =>
      cases hd : getDocument w dn with
      | none => simp [save, hdn, hd]
      | some doc =>
        simp [save, hdn, mem_listDocuments_of_getDocument hd, hd,
          save_body_reject env _ doc ha hg hr]
  · intro effs b h
    cases hdn : st.docname with
    | none =>
      rw [save, hdn] at h
      simp at h
    | some dn =>
      cases hd : getDocument w dn with
      | none =>
        rw [save, hdn] at h
        simp [hd] at h
      | some doc =>
        rw [save, hdn] at h
        simp [mem_listDocuments_of_getDocument hd, hd] at h
        exact save_body_pw_some env _ doc effs b h

/-- Environment for the C10 witness: prompt enabled, GUI up, dialog
rejected. -/
def c10env : SaveEnv := ⟨true, true, false, true⟩

theorem C10_dialog_reject_semantics_witness :
    (save c10env c3worldB ⟨some "d", none⟩).outcome = .ok ([], none) :=
  (C10_dialog_reject_semantics c10env c3worldB ⟨some "d", none⟩).1 rfl rfl rfl

end IfcObserver
